import Mathlib

/-!
Shallow embedding of the worker-side model-instance lifecycle coordinator
(`gpustack/worker/serve_manager.py`, class `ServeManager`) together with the
pieces of its data model that the coordinator reads.

External collaborators (the control-plane client, the OS process spawner, the
free-port allocator, the health probe) are supplied as explicit environment
records; control-plane writes, spawns and terminations are emitted as an
effect list instead of being performed.  Python dicts are embedded as
association lists over `Nat` keys with dict-assignment and dict-pop
operations; `datetime` values are embedded as integer microsecond counts
(Python datetimes carry microsecond resolution), so that the restart
policy's comparison of elapsed seconds against its backoff delay is
embedded exactly, scaled by one million.
-/

set_option autoImplicit false

namespace ServeManager

/-- States of a model instance that the coordinator reads or writes
(`ModelInstanceStateEnum`). -/
inductive ModelInstanceStateEnum where
  | scheduled
  | downloading
  | initializing
  | starting
  | running
  | error
  deriving DecidableEq

/-- Event kinds delivered by the model-instance watch (`EventType`). -/
inductive EventType where
  | created
  | updated
  | deleted
  deriving DecidableEq

/-- Distributed-serving coordination modes
(`DistributedServerCoordinateModeEnum`); the third mode is named
INITIALIZE_LATER in the source. -/
inductive CoordinateMode where
  | runFirst
  | delegated
  | initLater
  deriving DecidableEq

/-- Inference backends the coordinator distinguishes (`BackendEnum`). -/
inductive BackendEnum where
  | llamaBox
  | vllm
  | voxBox
  | ascendMindie
  deriving DecidableEq

/-- One subordinate participant of a distributed topology
(`ModelInstanceSubordinateWorker`). -/
structure SubordinateWorker where
  worker_id : Nat
  worker_ip : String
  state : ModelInstanceStateEnum
  state_message : String
  pid : Option Nat
  deriving DecidableEq

/-- Distributed topology descriptor on a model instance
(`DistributedServers`).  The optional subordinate list of the source is
embedded as a plain list, with the Python None read as the empty list; the
source only reaches element access on it after establishing non-emptiness. -/
structure DistributedServers where
  mode : CoordinateMode
  subordinate_workers : List SubordinateWorker
  deriving DecidableEq

/-- The unit of work (`ModelInstance`), restricted to the attributes the
coordinator reads.  Timestamps are integers counting microseconds. -/
structure ModelInstance where
  id : Nat
  name : String
  model_id : Nat
  model_name : String
  worker_id : Option Nat
  port : Option Nat
  ports : List Nat
  state : ModelInstanceStateEnum
  state_message : String
  restart_count : Option Nat
  last_restart_time : Option ℤ
  updated_at : Option ℤ
  distributed_servers : Option DistributedServers
  deriving DecidableEq

/-- The model definition attributes the coordinator reads (`Model`); the
backend resolved by `get_backend` is carried as a field. -/
structure Model where
  restart_on_error : Bool
  backend : BackendEnum
  deriving DecidableEq

/-- An OS process handle as the coordinator observes it
(`multiprocessing.Process`): pid, liveness, exit code. -/
structure Proc where
  pid : Nat
  alive : Bool
  exitcode : Int
  deriving DecidableEq

/-- A watch event (`Event`): its kind and the validated instance snapshot. -/
structure Event where
  type : EventType
  data : ModelInstance
  deriving DecidableEq

/-! ### Association lists standing for the Python dicts -/

/-- Dict lookup: first (and, under dict semantics, only) binding of a key. -/
def alLookup {α : Type} (k : Nat) : List (Nat × α) → Option α
  | [] => none
  | (k', v) :: t => if k = k' then some v else alLookup k t

/-- Dict `pop(k, None)`: drop any binding of the key. -/
def alErase {α : Type} (k : Nat) (l : List (Nat × α)) : List (Nat × α) :=
  l.filter (fun p => decide (p.1 ≠ k))

/-- Dict assignment `d[k] = v`. -/
def alUpdate {α : Type} (k : Nat) (v : α) (l : List (Nat × α)) : List (Nat × α) :=
  (k, v) :: alErase k l

/-! ### Coordinator state, environments and effects -/

/-- The process-local runtime state of `ServeManager`: the serving map
(`_serving_model_instances`), the serving-ports map
(`_serving_model_instance_ports`), the starting map
(`_starting_model_instances`), the remembered ERROR map
(`_error_model_instances`), the per-instance model cache
(`_model_cache_by_instance`), and the contents of the
`instance_mapping.txt` file as a map from instance id to log directory. -/
structure LocalState where
  serving : List (Nat × Proc)
  ports : List (Nat × List Nat)
  starting : List (Nat × ModelInstance)
  errorInstances : List (Nat × ModelInstance)
  modelCache : List (Nat × Model)
  mapping : List (Nat × String)
  deriving DecidableEq

/-- The coordinator state at worker start: every map empty. -/
def initialState : LocalState :=
  { serving := [], ports := [], starting := [], errorInstances := []
    modelCache := [], mapping := [] }

/-- Environment for the event-dispatch and start paths: the control-plane
model lookup keyed by instance id (none embeds a raised lookup error), the
free-port allocator as a function of the unavailable-port collection (none
embeds port-range exhaustion), and the process spawner (none embeds a spawn
failure). -/
structure Env where
  model : Nat → Option Model
  get_free_port : List Nat → Option Nat
  spawn : Option Proc

/-- Environment for the health sweep: the control-plane instance fetch by id
(none embeds a not-found error), the model lookup, and the outcome of the
readiness probe (`is_ready`) per instance id. -/
structure HealthEnv where
  fetch : Nat → Option ModelInstance
  model : Nat → Option Model
  ready : Nat → Bool

/-- The partial-update bodies (`patch_dict` literals) the coordinator sends. -/
inductive PatchDict where
  /-- `{state, state_message}`. -/
  | stateMsg (state : ModelInstanceStateEnum) (state_message : String)
  /-- `{state, port, ports, pid}` sent by the main worker on start. -/
  | startMain (state : ModelInstanceStateEnum) (port : Option Nat)
      (ports : List Nat) (pid : Nat)
  /-- A targeted subordinate-slot patch addressed by list position. -/
  | subSlot (pos : Nat) (sw : SubordinateWorker)
  /-- `{restart_count, last_restart_time, state, state_message}` sent by the
  restart sweep. -/
  | restart (restart_count : Nat) (last_restart_time : ℤ)
      (state : ModelInstanceStateEnum) (state_message : String)
  deriving DecidableEq

/-- Outward actions the coordinator performs. -/
inductive Effect where
  /-- A control-plane partial update of one instance. -/
  | patch (id : Nat) (d : PatchDict)
  /-- An OS process spawned for an instance. -/
  | spawn (id : Nat) (pid : Nat)
  /-- `terminate_process_tree` on a pid. -/
  | terminate (pid : Nat)
  deriving DecidableEq

/-- The subordinate list of an instance, empty when there is no
distributed-servers descriptor. -/
def subsOf (mi : ModelInstance) : List SubordinateWorker :=
  (mi.distributed_servers.map DistributedServers.subordinate_workers).getD []

/-! ### Embedded operations -/

/-- `_get_model_with_cache`: consult the per-instance cache, else fetch the
model and cache it; a raised fetch error yields none. -/
def get_model_with_cache (fetch : Nat → Option Model) (mi : ModelInstance)
    (s : LocalState) : Option (Model × LocalState) :=
  match alLookup mi.id s.modelCache with
  | some m => some (m, s)
  | none =>
      match fetch mi.id with
      | some m => some (m, { s with modelCache := alUpdate mi.id m s.modelCache })
      | none => none

/-- `all(sw.state == RUNNING for sw in subordinate_workers)`. -/
def all_subordinates_running (l : List SubordinateWorker) : Bool :=
  l.all fun sw => sw.state = ModelInstanceStateEnum.running

/-- The strict-ordering loop of `_handle_model_instance_event`: walk the
subordinate list; break without waiting at this node's own slot; wait as
soon as an earlier subordinate is in neither RUNNING nor ERROR. -/
def waits_for_earlier (selfId : Nat) : List SubordinateWorker → Bool
  | [] => false
  | sw :: rest =>
      if sw.worker_id = selfId then false
      else if sw.state = ModelInstanceStateEnum.running
              ∨ sw.state = ModelInstanceStateEnum.error then
        waits_for_earlier selfId rest
      else true

/-- The early-return block of `_handle_model_instance_event` (the
Coordination Gate): true when the handler returns before dispatching. -/
def gate_blocked (selfId : Nat) (mi : ModelInstance) : Bool :=
  if mi.worker_id = some selfId then
    match mi.distributed_servers with
    | some ds =>
        ds.mode = CoordinateMode.runFirst
          && !ds.subordinate_workers.isEmpty
          && !all_subordinates_running ds.subordinate_workers
    | none => false
  else
    match mi.distributed_servers with
    | none => true
    | some ds =>
        ds.mode = CoordinateMode.delegated
          || !(ds.subordinate_workers.any fun sw => sw.worker_id = selfId)
          || (ds.mode = CoordinateMode.initLater
                && !(mi.state = ModelInstanceStateEnum.starting
                      ∨ mi.state = ModelInstanceStateEnum.running
                      ∨ mi.state = ModelInstanceStateEnum.error))
          || waits_for_earlier selfId ds.subordinate_workers

/-- `_post_stop_model_instance`: drop the id from the serving, ports,
starting and model-cache maps and from the mapping file. -/
def post_stop_model_instance (id : Nat) (s : LocalState) : LocalState :=
  { s with
    serving := alErase id s.serving
    ports := alErase id s.ports
    starting := alErase id s.starting
    modelCache := alErase id s.modelCache
    mapping := alErase id s.mapping }

/-- `_stop_model_instance`: skip when the id is not tracked as serving;
otherwise terminate the process tree (every termination error is caught)
and run the post-stop cleanup. -/
def stop_model_instance (id : Nat) (s : LocalState) : LocalState × List Effect :=
  match alLookup id s.serving with
  | none => (s, [])
  | some process => (post_stop_model_instance id s, [Effect.terminate process.pid])

/-- Position of this node's slot in a subordinate list (the source's
`next(i for i, sw in enumerate(...) if sw.worker_id == self._worker_id)`,
which has no default and raises when absent). -/
def find_slot_idx (selfId : Nat) (l : List SubordinateWorker) : Option Nat :=
  l.findIdx? fun sw => sw.worker_id = selfId

/-- A placeholder subordinate record for total indexing; never reached on
indices produced by `find_slot_idx`. -/
def swDefault : SubordinateWorker :=
  { worker_id := 0, worker_ip := "", state := ModelInstanceStateEnum.scheduled
    state_message := "", pid := none }

/-- All ports of the serving-ports map, the source's
`set.union(*self._serving_model_instance_ports.values())`. -/
def ports_union (l : List (Nat × List Nat)) : List Nat :=
  l.foldr (fun p acc => p.2 ++ acc) []

/-- The try-block and except-block of `_start_serve_process`, entered after
the mapping file was updated and, for a subordinate, after its slot was
resolved (`pos?` is none for the main worker).  Failure of the model
lookup, of a port allocation or of the spawn lands in the except block,
which patches state ERROR (or the slot's state) and leaves the serving,
ports and starting maps untouched. -/
def start_try (env : Env) (mi : ModelInstance) (s : LocalState)
    (pos? : Option Nat) : LocalState × List Effect :=
  let subs := subsOf mi
  let fail : LocalState → String → LocalState × List Effect := fun s' e =>
    match pos? with
    | none =>
        (s', [Effect.patch mi.id (PatchDict.stateMsg ModelInstanceStateEnum.error
          ("Failed to start model instance: " ++ e))])
    | some pos =>
        let sw0 := subs.getD pos swDefault
        let sw := { sw0 with
          state := ModelInstanceStateEnum.error
          state_message := "Failed to start model instance: " ++ e }
        (s', [Effect.patch mi.id (PatchDict.subSlot pos sw)])
  match get_model_with_cache env.model mi s with
  | none => fail s "model lookup failed"
  | some (model, s1) =>
      let backend := model.backend
      let portAssigned : Option (Option Nat × List Nat) :=
        if mi.port.getD 0 = 0 then
          let unavailable := ports_union s1.ports
          match env.get_free_port unavailable with
          | none => none
          | some p =>
              if mi.distributed_servers.isSome ∧ subs ≠ [] then
                if backend = BackendEnum.ascendMindie then
                  match env.get_free_port (p :: unavailable) with
                  | none => none
                  | some p2 => some (some p, [p, p2])
                else some (some p, [p])
              else some (some p, [p])
        else some (mi.port, mi.ports)
      match portAssigned with
      | none => fail s1 "port range exhausted"
      | some (port, ports) =>
          match env.spawn with
          | none => fail s1 "spawn failed"
          | some process =>
              let mi' := { mi with port := port, ports := ports }
              let s2 := { s1 with
                serving := alUpdate mi.id process s1.serving
                ports := alUpdate mi.id ports s1.ports
                starting := alUpdate mi.id mi' s1.starting }
              match pos? with
              | none =>
                  (s2, [Effect.spawn mi.id process.pid,
                    Effect.patch mi.id (PatchDict.startMain
                      ModelInstanceStateEnum.initializing port ports process.pid)])
              | some pos =>
                  let sw0 := subs.getD pos swDefault
                  let st := if backend = BackendEnum.ascendMindie then
                      ModelInstanceStateEnum.running
                    else ModelInstanceStateEnum.initializing
                  let sw := { sw0 with state := st, pid := some process.pid }
                  (s2, [Effect.spawn mi.id process.pid,
                    Effect.patch mi.id (PatchDict.subSlot pos sw)])

/-- `_start_serve_process`: update the mapping file, resolve the subordinate
slot when this node is not the main worker (the source raises out of the
handler when the slot is absent, before entering the try block, so no
further state change or effect happens), then run the try-block. -/
def start_serve_process (selfId : Nat) (env : Env) (mi : ModelInstance)
    (s0 : LocalState) : LocalState × List Effect :=
  let replicaLogDir := mi.model_name ++ "/" ++ mi.name
  let s := { s0 with mapping := alUpdate mi.id replicaLogDir s0.mapping }
  if mi.worker_id = some selfId then start_try env mi s none
  else
    match find_slot_idx selfId (subsOf mi) with
    | none => (s, [])
    | some pos => start_try env mi s (some pos)

/-- `_restart_serve_process`: stop then start. -/
def restart_serve_process (selfId : Nat) (env : Env) (mi : ModelInstance)
    (s : LocalState) : LocalState × List Effect :=
  let r1 := stop_model_instance mi.id s
  let r2 := start_serve_process selfId env mi r1.1
  (r2.1, r1.2 ++ r2.2)

/-- The dispatch section of `_handle_model_instance_event`, reached only
when the Coordination Gate did not return. -/
def dispatch_event (selfId : Nat) (env : Env) (s : LocalState) (ev : Event) :
    LocalState × List Effect :=
  let mi := ev.data
  if mi.state = ModelInstanceStateEnum.error ∧ ev.type = EventType.deleted then
    ({ s with errorInstances := alErase mi.id s.errorInstances }, [])
  else if mi.state = ModelInstanceStateEnum.error then
    match get_model_with_cache env.model mi s with
    | none => (s, [])
    | some (m, s1) =>
        if m.restart_on_error then
          ({ s1 with errorInstances := alUpdate mi.id mi s1.errorInstances }, [])
        else (s1, [])
  else if (alLookup mi.id s.serving).isSome ∧ ev.type = EventType.deleted then
    stop_model_instance mi.id s
  else if (alLookup mi.id s.serving).isSome
      ∧ mi.state = ModelInstanceStateEnum.scheduled then
    restart_serve_process selfId env mi s
  else if (ev.type = EventType.created ∨ ev.type = EventType.updated)
      ∧ (alLookup mi.id s.serving).isNone then
    start_serve_process selfId env mi s
  else (s, [])

/-- `_handle_model_instance_event`: the Coordination Gate followed by the
dispatch section. -/
def handle_model_instance_event (selfId : Nat) (env : Env) (s : LocalState)
    (ev : Event) : LocalState × List Effect :=
  if gate_blocked selfId ev.data then (s, [])
  else dispatch_event selfId env s ev

/-- The exponential-backoff delay of `_restart_error_instance`,
`min(10 * 2 ** (restart_count - 1), 300)` seconds, expressed in
microseconds: `10 * 2 ** (restart_count - 1)` equals `5 * 2 ** restart_count`
exactly (also at the negative exponent arising from a zero restart count),
so the delay in microseconds is `min(5 * 2 ** restart_count, 300) * 10 ** 6`;
the theorem `restartDelayUs_eq_spec_formula` below relates this to the
formula over the rationals. -/
def restartDelayUs (restart_count : Nat) : Nat :=
  min (5 * 2 ^ restart_count * 1000000) 300000000

/-- `_restart_error_instance`: skip when the id is tracked as serving;
otherwise take the remembered restart count (unset read as 0) and the last
restart time (falling back to the last-update time), and unless a known
last time shows the elapsed seconds below the backoff delay, patch the
instance to SCHEDULED with an incremented restart count, the current time
as last restart time and a cleared message, and drop it from the
remembered ERROR map. -/
def restart_error_instance (mi : ModelInstance) (s : LocalState) (now : ℤ) :
    LocalState × List Effect :=
  if (alLookup mi.id s.serving).isSome then (s, [])
  else
    let restart_count := mi.restart_count.getD 0
    let last_restart_time := mi.last_restart_time <|> mi.updated_at
    let delay := restartDelayUs restart_count
    let tooEarly : Bool :=
      match last_restart_time with
      | some t => decide (now - t < (delay : ℤ))
      | none => false
    if tooEarly then (s, [])
    else
      ({ s with errorInstances := alErase mi.id s.errorInstances },
       [Effect.patch mi.id (PatchDict.restart (restart_count + 1) now
          ModelInstanceStateEnum.scheduled "")])

/-- One pass of `monitor_error_instances`: apply the restart policy to every
remembered ERROR instance, in map order, threading the state and
accumulating the emitted patches. -/
def monitor_error_instances_once (s : LocalState) (now : ℤ) :
    LocalState × List Effect :=
  s.errorInstances.foldl
    (fun acc p =>
      let r := restart_error_instance p.2 acc.1 now
      (r.1, acc.2 ++ r.2))
    (s, [])

/-- The message of the first subordinate found in ERROR by the health sweep
of a main worker, if any. -/
def first_subordinate_error (l : List SubordinateWorker) : Option String :=
  match l.find? (fun sw => sw.state = ModelInstanceStateEnum.error) with
  | some sw =>
      some ("Distributed serving error in subordinate worker "
        ++ sw.worker_ip ++ ": " ++ sw.state_message ++ ".")
  | none => none

/-- The loop body of `health_check_serving_instances`, recursing over the
snapshot of the serving map taken at entry.  A dead process is patched to
ERROR (whole instance for the main worker, only this node’s slot for a
subordinate) unless the fetched state is already ERROR, the post-stop
cleanup runs, and the whole sweep returns for this round.  A not-found
answer fetching an instance stops that instance and the sweep continues.
An absent subordinate slot embeds the unhandled error the source raises
there, which also ends the sweep (with no cleanup).  A live starting
instance is probed and, when ready, patched to RUNNING and dropped from
the starting map. -/
def health_check_go (env : HealthEnv) (selfId : Nat) :
    List (Nat × Proc) → LocalState → List Effect → LocalState × List Effect
  | [], s, effs => (s, effs)
  | (id, process) :: rest, s, effs =>
    if process.alive ∧ (alLookup id s.starting).isNone then
      health_check_go env selfId rest s effs
    else
      match env.fetch id with
      | none =>
          let r := stop_model_instance id s
          health_check_go env selfId rest r.1 (effs ++ r.2)
      | some mi =>
          let isMain := mi.worker_id = some selfId
          if process.alive = false then
            if mi.state = ModelInstanceStateEnum.error then
              (post_stop_model_instance mi.id s, effs)
            else
              let msg := "Inference server exited with code "
                ++ toString process.exitcode ++ "."
              if isMain then
                (post_stop_model_instance mi.id s,
                 effs ++ [Effect.patch mi.id
                    (PatchDict.stateMsg ModelInstanceStateEnum.error msg)])
              else
                match find_slot_idx selfId (subsOf mi) with
                | none => (s, effs)
                | some pos =>
                    let sw0 := (subsOf mi).getD pos swDefault
                    let sw := { sw0 with
                      state := ModelInstanceStateEnum.error
                      state_message := msg }
                    (post_stop_model_instance mi.id s,
                     effs ++ [Effect.patch mi.id (PatchDict.subSlot pos sw)])
          else
            match get_model_with_cache env.model mi s with
            | none => (s, effs)
            | some (model, s1) =>
                let backend := model.backend
                if isMain then
                  match first_subordinate_error (subsOf mi) with
                  | none =>
                      if env.ready id = false then
                        health_check_go env selfId rest s1 effs
                      else if mi.state = ModelInstanceStateEnum.running then
                        health_check_go env selfId rest s1 effs
                      else
                        health_check_go env selfId rest
                          { s1 with starting := alErase mi.id s1.starting }
                          (effs ++ [Effect.patch mi.id (PatchDict.stateMsg
                             ModelInstanceStateEnum.running "")])
                  | some msg =>
                      health_check_go env selfId rest
                        { s1 with starting := alErase mi.id s1.starting }
                        (effs ++ [Effect.patch mi.id (PatchDict.stateMsg
                           ModelInstanceStateEnum.error msg)])
                else
                  if backend = BackendEnum.ascendMindie then
                    health_check_go env selfId rest
                      { s1 with starting := alErase mi.id s1.starting } effs
                  else
                    match find_slot_idx selfId (subsOf mi) with
                    | none => (s1, effs)
                    | some pos =>
                        let sw0 := (subsOf mi).getD pos swDefault
                        if sw0.state = ModelInstanceStateEnum.running then
                          health_check_go env selfId rest s1 effs
                        else
                          let sw := { sw0 with
                            state := ModelInstanceStateEnum.running
                            state_message := "" }
                          health_check_go env selfId rest
                            { s1 with starting := alErase mi.id s1.starting }
                            (effs ++ [Effect.patch mi.id
                               (PatchDict.subSlot pos sw)])

/-- `health_check_serving_instances`: run the sweep body over the snapshot
`list(self._serving_model_instances.items())`. -/
def health_check_serving_instances (env : HealthEnv) (selfId : Nat)
    (s : LocalState) : LocalState × List Effect :=
  health_check_go env selfId s.serving s []

/-- The serving/serving-ports alignment invariant of the local state: an
instance id has a binding in the serving-ports map iff it has one in the
serving map. -/
def sameKeys (s : LocalState) : Prop :=
  ∀ id, (alLookup id s.serving).isSome ↔ (alLookup id s.ports).isSome

/-! ### Concrete fixtures for witnesses and counterexamples -/

/-- A baseline instance snapshot for concrete scenarios. -/
def miBase : ModelInstance :=
  { id := 0, name := "mi", model_id := 1, model_name := "m", worker_id := none
    port := none, ports := [], state := ModelInstanceStateEnum.scheduled
    state_message := "", restart_count := none, last_restart_time := none
    updated_at := none, distributed_servers := none }

/-- An environment in which every external call fails. -/
def envNo : Env :=
  { model := fun _ => none, get_free_port := fun _ => none, spawn := none }

/-- A subordinate on worker 2 that is still STARTING. -/
def swStarting2 : SubordinateWorker :=
  { worker_id := 2, worker_ip := "10.0.0.2"
    state := ModelInstanceStateEnum.starting, state_message := "", pid := none }

/-- A subordinate slot for worker 3 that is still SCHEDULED. -/
def swScheduled3 : SubordinateWorker :=
  { worker_id := 3, worker_ip := "10.0.0.3"
    state := ModelInstanceStateEnum.scheduled, state_message := "", pid := none }

/-- A RUN_FIRST instance on worker 1 whose only subordinate is not RUNNING. -/
def miRunFirst : ModelInstance :=
  { miBase with
    id := 7, worker_id := some 1
    distributed_servers := some
      { mode := CoordinateMode.runFirst, subordinate_workers := [swStarting2] } }

/-- An instance assigned to worker 2 with no distributed topology. -/
def miForeign : ModelInstance :=
  { miBase with id := 8, worker_id := some 2 }

/-- A distributed instance on worker 5 whose subordinate list is
worker 2 (STARTING) before worker 3. -/
def miStrictOrder : ModelInstance :=
  { miBase with
    id := 9, worker_id := some 5
    distributed_servers := some
      { mode := CoordinateMode.runFirst
        subordinate_workers := [swStarting2, swScheduled3] } }

/-- A live tracked process with pid 41. -/
def prTracked : Proc := { pid := 41, alive := true, exitcode := 0 }

/-- An instance on worker 1 whose snapshot state is ERROR. -/
def miErrSnapshot : ModelInstance :=
  { miBase with
    id := 5
    worker_id := some 1
    state := ModelInstanceStateEnum.error }

/-- The same instance with snapshot state RUNNING. -/
def miRunSnapshot : ModelInstance :=
  { miBase with
    id := 5
    worker_id := some 1
    state := ModelInstanceStateEnum.running }

/-- A local state tracking instance 5 in every map. -/
def sTracked : LocalState :=
  { serving := [(5, prTracked)], ports := [(5, [7000])]
    starting := [(5, miRunSnapshot)], errorInstances := [(5, miErrSnapshot)]
    modelCache := [], mapping := [(5, "m/mi")] }

/-- An ERROR instance remembered for restart with two restarts done, whose
last restart happened five seconds before time zero. -/
def miBackoff : ModelInstance :=
  { miBase with
    id := 6
    state := ModelInstanceStateEnum.error
    restart_count := some 2
    last_restart_time := some (-5000000) }

/-- An ERROR instance remembered for restart with one restart done, last
restarted at time zero. -/
def miOnceRestarted : ModelInstance :=
  { miBase with
    id := 6
    state := ModelInstanceStateEnum.error
    restart_count := some 1
    last_restart_time := some 0 }

/-- A never-restarted ERROR instance last updated at time zero. -/
def miNeverRestarted : ModelInstance :=
  { miBase with
    id := 6
    state := ModelInstanceStateEnum.error
    updated_at := some 0 }

/-- A state remembering instance 6 as an ERROR instance. -/
def sErr : LocalState :=
  { initialState with errorInstances := [(6, miOnceRestarted)] }

/-- A dead process that exited with code 137. -/
def prDead137 : Proc := { pid := 11, alive := false, exitcode := 137 }

/-- A dead process that exited with code 1. -/
def prDeadOne : Proc := { pid := 12, alive := false, exitcode := 1 }

/-- A RUNNING instance snapshot on worker 1 with id 1. -/
def miHealth1 : ModelInstance :=
  { miBase with
    id := 1
    worker_id := some 1
    state := ModelInstanceStateEnum.running }

/-- A RUNNING instance snapshot on worker 1 with id 2. -/
def miHealth2 : ModelInstance :=
  { miBase with
    id := 2
    worker_id := some 1
    state := ModelInstanceStateEnum.running }

/-- A health environment resolving ids 1 and 2 to those snapshots. -/
def henvTwo : HealthEnv :=
  { fetch := fun n =>
      if n = 1 then some miHealth1 else if n = 2 then some miHealth2 else none
    model := fun _ => none
    ready := fun _ => false }

/-- A state whose serving map tracks the two dead processes. -/
def sTwoDead : LocalState :=
  { serving := [(1, prDead137), (2, prDeadOne)]
    ports := [(1, [7001]), (2, [7002])]
    starting := [], errorInstances := [], modelCache := []
    mapping := [(1, "m/a"), (2, "m/b")] }

/-- An alive tracked process the health sweep skips over. -/
def prAliveIdle : Proc := { pid := 21, alive := true, exitcode := 0 }

/-- A subordinate slot owned by worker 1, still INITIALIZING. -/
def swSlotSelf1 : SubordinateWorker :=
  { worker_id := 1, worker_ip := "10.0.0.1"
    state := ModelInstanceStateEnum.initializing, state_message := ""
    pid := some 11 }

/-- A distributed instance of worker 9 whose only subordinate slot belongs
to worker 1 (this node). -/
def miSubDead : ModelInstance :=
  { miBase with
    id := 3
    worker_id := some 9
    state := ModelInstanceStateEnum.running
    distributed_servers := some
      { mode := CoordinateMode.initLater, subordinate_workers := [swSlotSelf1] } }

/-- An instance on worker 1 already in ERROR when fetched by the sweep. -/
def miErrFetched : ModelInstance :=
  { miBase with
    id := 4
    worker_id := some 1
    state := ModelInstanceStateEnum.error }

/-- A health environment resolving ids 1-4 and leaving id 7 not found. -/
def henvMulti : HealthEnv :=
  { fetch := fun n =>
      if n = 1 then some miHealth1
      else if n = 2 then some miHealth2
      else if n = 3 then some miSubDead
      else if n = 4 then some miErrFetched
      else none
    model := fun _ => none
    ready := fun _ => false }

/-- A state whose serving map holds an alive process before two dead ones. -/
def sSkipDead : LocalState :=
  { serving := [(8, prAliveIdle), (1, prDead137), (2, prDeadOne)]
    ports := [(8, [7008]), (1, [7001]), (2, [7002])]
    starting := [], errorInstances := [], modelCache := []
    mapping := [(1, "m/a"), (2, "m/b")] }

/-- A state serving the dead process of the subordinate instance 3. -/
def sDeadSub : LocalState :=
  { serving := [(3, prDead137)], ports := [(3, [7003])], starting := []
    errorInstances := [], modelCache := [], mapping := [(3, "m/c")] }

/-- A state serving the dead process of the already-ERROR instance 4. -/
def sDeadErr : LocalState :=
  { serving := [(4, prDeadOne)], ports := [(4, [7004])], starting := []
    errorInstances := [], modelCache := [], mapping := [(4, "m/d")] }

/-- A state serving a dead process whose instance record is gone. -/
def sDeadGone : LocalState :=
  { serving := [(7, prDeadOne), (9, prAliveIdle)], ports := [(7, [7007])]
    starting := [], errorInstances := [], modelCache := [], mapping := [] }

/-! ### Helper lemmas -/

theorem handle_of_blocked {selfId : Nat} {env : Env} {s : LocalState} {ev : Event}
    (h : gate_blocked selfId ev.data = true) :
    handle_model_instance_event selfId env s ev = (s, []) := by
  unfold handle_model_instance_event
  rw [h]
  simp

theorem all_subordinates_running_eq_false {l : List SubordinateWorker}
    {sw : SubordinateWorker} (hmem : sw ∈ l)
    (h : sw.state ≠ ModelInstanceStateEnum.running) :
    all_subordinates_running l = false := by
  unfold all_subordinates_running
  rw [List.all_eq_false]
  exact ⟨sw, hmem, by simpa using h⟩

theorem waits_for_earlier_of_unready (selfId : Nat) :
    ∀ (l : List SubordinateWorker) (p q : Nat) (swq : SubordinateWorker),
      q < p →
      (∀ i swi, i < p → l.get? i = some swi → swi.worker_id ≠ selfId) →
      l.get? q = some swq →
      swq.state ≠ ModelInstanceStateEnum.running →
      swq.state ≠ ModelInstanceStateEnum.error →
      waits_for_earlier selfId l = true := by
  intro l
  induction l with
  | nil =>
      intro p q swq _ _ hget _ _
      simp at hget
  | cons sw rest ih =>
      intro p q swq hqp hearlier hget hr he
      have hsw : sw.worker_id ≠ selfId :=
        hearlier 0 sw (Nat.lt_of_le_of_lt (Nat.zero_le _) hqp) rfl
      unfold waits_for_earlier
      rw [if_neg hsw]
      cases q with
      | zero =>
          have hsweq : sw = swq := by simpa using hget
          subst hsweq
          rw [if_neg (by tauto)]
      | succ q' =>
          cases p with
          | zero => omega
          | succ p' =>
              by_cases hgood : sw.state = ModelInstanceStateEnum.running
                  ∨ sw.state = ModelInstanceStateEnum.error
              · rw [if_pos hgood]
                exact ih p' q' swq (by omega)
                  (fun i swi hi hg => hearlier (i + 1) swi (by omega) (by simpa using hg))
                  (by simpa using hget) hr he
              · rw [if_neg hgood]

/-! ### The claims about the Coordination Gate -/

/-- C3: for an event about an instance assigned to this node whose
distributed-servers descriptor has mode RUN_FIRST and a non-empty
subordinate list containing a subordinate that is not RUNNING, the handler
takes no action: the state is unchanged and no effect (no spawn, no patch,
no termination) is emitted, so the start path is never invoked. -/
theorem c3_run_first_waits (selfId : Nat) (env : Env) (s : LocalState)
    (ev : Event) (ds : DistributedServers) (sw : SubordinateWorker)
    (hMain : ev.data.worker_id = some selfId)
    (hds : ev.data.distributed_servers = some ds)
    (hmode : ds.mode = CoordinateMode.runFirst)
    (hmem : sw ∈ ds.subordinate_workers)
    (hnotrun : sw.state ≠ ModelInstanceStateEnum.running) :
    handle_model_instance_event selfId env s ev = (s, []) := by
  apply handle_of_blocked
  unfold gate_blocked
  rw [if_pos hMain, hds]
  simp [hmode, List.ne_nil_of_mem hmem,
    all_subordinates_running_eq_false hmem hnotrun]

/-- C8: for an event about an instance assigned to another node, the handler
returns with the state unchanged and no effect emitted whenever the
instance has no distributed-servers descriptor, or the coordination mode is
DELEGATED, or this node is not among the subordinate workers, or the mode
is the initialize-later one and the main instance state is none of
STARTING, RUNNING, ERROR. -/
theorem c8_foreign_instance_ignored (selfId : Nat) (env : Env) (s : LocalState)
    (ev : Event)
    (hOther : ev.data.worker_id ≠ some selfId)
    (h : ev.data.distributed_servers = none
      ∨ (∃ ds, ev.data.distributed_servers = some ds
          ∧ ds.mode = CoordinateMode.delegated)
      ∨ (∃ ds, ev.data.distributed_servers = some ds
          ∧ ∀ sw ∈ ds.subordinate_workers, sw.worker_id ≠ selfId)
      ∨ (∃ ds, ev.data.distributed_servers = some ds
          ∧ ds.mode = CoordinateMode.initLater
          ∧ ev.data.state ≠ ModelInstanceStateEnum.starting
          ∧ ev.data.state ≠ ModelInstanceStateEnum.running
          ∧ ev.data.state ≠ ModelInstanceStateEnum.error)) :
    handle_model_instance_event selfId env s ev = (s, []) := by
  apply handle_of_blocked
  unfold gate_blocked
  rw [if_neg hOther]
  rcases h with hnone | ⟨ds, hds, hmode⟩ | ⟨ds, hds, hnotmem⟩
      | ⟨ds, hds, hmode, h1, h2, h3⟩
  · rw [hnone]
  · rw [hds]
    simp [hmode]
  · rw [hds]
    have : (ds.subordinate_workers.any fun sw => sw.worker_id = selfId) = false := by
      rw [List.any_eq_false]
      intro sw hsw
      simpa using hnotmem sw hsw
    simp [this]
  · rw [hds]
    simp [hmode, h1, h2, h3]

/-- C4: for an event observed by a non-main worker that occupies position p
of the subordinate list (no earlier slot carries its worker id), if some
subordinate at a position before p is in neither RUNNING nor ERROR, the
handler waits: the state is unchanged and no effect is emitted, so no
process is spawned for this node before every earlier subordinate has
reached RUNNING or ERROR. -/
theorem c4_strict_subordinate_order (selfId : Nat) (env : Env) (s : LocalState)
    (ev : Event) (ds : DistributedServers) (p q : Nat)
    (swp swq : SubordinateWorker)
    (hOther : ev.data.worker_id ≠ some selfId)
    (hds : ev.data.distributed_servers = some ds)
    (hearlier : ∀ i swi, i < p → ds.subordinate_workers.get? i = some swi →
      swi.worker_id ≠ selfId)
    (hp : ds.subordinate_workers.get? p = some swp)
    (hpid : swp.worker_id = selfId)
    (hq : q < p)
    (hqe : ds.subordinate_workers.get? q = some swq)
    (hqr : swq.state ≠ ModelInstanceStateEnum.running)
    (hqer : swq.state ≠ ModelInstanceStateEnum.error) :
    handle_model_instance_event selfId env s ev = (s, []) := by
  apply handle_of_blocked
  unfold gate_blocked
  rw [if_neg hOther, hds]
  simp [waits_for_earlier_of_unready selfId ds.subordinate_workers p q swq hq
    hearlier hqe hqr hqer]

/-! ### Association-list lemmas -/

@[simp]
theorem alLookup_alErase {α : Type} (k k' : Nat) (l : List (Nat × α)) :
    alLookup k (alErase k' l) = if k = k' then none else alLookup k l := by
  induction l with
  | nil => simp [alErase, alLookup]
  | cons p t ih =>
      obtain ⟨a, b⟩ := p
      by_cases hp : a = k' <;> by_cases hkk : k = k' <;>
        simp_all [alErase, List.filter_cons, alLookup] <;> omega

@[simp]
theorem alLookup_alUpdate {α : Type} (k k' : Nat) (v : α) (l : List (Nat × α)) :
    alLookup k (alUpdate k' v l) = if k = k' then some v else alLookup k l := by
  by_cases h : k = k' <;> simp [alUpdate, alLookup, h]

/-! ### The claim about DELETED events (C2) -/

/-- C2 (amended): a DELETED event passing the Coordination Gate for a
tracked instance whose snapshot state is anything other than ERROR stops
the process and removes the id from all four local maps and from the
mapping file; a DELETED event whose snapshot state is ERROR instead only
drops the id from the remembered-ERROR map (see the counterexample). -/
theorem c2_deleted_removes_all_bookkeeping (selfId : Nat) (env : Env)
    (s : LocalState) (ev : Event) (pr : Proc)
    (hgate : gate_blocked selfId ev.data = false)
    (hstate : ev.data.state ≠ ModelInstanceStateEnum.error)
    (htype : ev.type = EventType.deleted)
    (hserv : alLookup ev.data.id s.serving = some pr) :
    handle_model_instance_event selfId env s ev =
      (post_stop_model_instance ev.data.id s, [Effect.terminate pr.pid])
    ∧ alLookup ev.data.id (post_stop_model_instance ev.data.id s).serving = none
    ∧ alLookup ev.data.id (post_stop_model_instance ev.data.id s).ports = none
    ∧ alLookup ev.data.id (post_stop_model_instance ev.data.id s).starting = none
    ∧ alLookup ev.data.id (post_stop_model_instance ev.data.id s).modelCache = none
    ∧ alLookup ev.data.id (post_stop_model_instance ev.data.id s).mapping = none := by
  refine ⟨?_, ?_, ?_, ?_, ?_, ?_⟩
  · unfold handle_model_instance_event
    rw [hgate]
    simp only [dispatch_event]
    rw [htype]
    simp only [hserv, stop_model_instance]
    simp [hstate]
  all_goals simp [post_stop_model_instance, alLookup_alErase]

/-- C2 counterexample: instance 5 is tracked as serving in `sTracked`, yet a
DELETED event whose snapshot carries state ERROR leaves the serving map
binding in place and emits no effect (the claim asserts removal from all
four maps for every state value the snapshot may carry). -/
theorem c2_counterexample :
    alLookup 5 (handle_model_instance_event 1 envNo sTracked
      { type := EventType.deleted, data := miErrSnapshot }).1.serving = some prTracked
    ∧ (handle_model_instance_event 1 envNo sTracked
      { type := EventType.deleted, data := miErrSnapshot }).2 = [] := by
  decide

/-- Witness for the amended C2 at a concrete tracked instance. -/
theorem c2_witness :
    handle_model_instance_event 1 envNo sTracked
        { type := EventType.deleted, data := miRunSnapshot } =
      (post_stop_model_instance 5 sTracked, [Effect.terminate 41])
    ∧ alLookup 5 (post_stop_model_instance 5 sTracked).serving = none := by
  have h := c2_deleted_removes_all_bookkeeping 1 envNo sTracked
    { type := EventType.deleted, data := miRunSnapshot } prTracked
    (by decide) (by decide) rfl (by decide)
  exact ⟨h.1, h.2.1⟩

/-- Witness for C3 at a concrete RUN_FIRST instance with a STARTING
subordinate. -/
theorem c3_witness :
    handle_model_instance_event 1 envNo initialState
      { type := EventType.updated, data := miRunFirst } = (initialState, []) :=
  c3_run_first_waits 1 envNo initialState
    { type := EventType.updated, data := miRunFirst }
    { mode := CoordinateMode.runFirst, subordinate_workers := [swStarting2] }
    swStarting2 rfl rfl rfl (by simp) (by decide)

/-- Witness for C8 at a concrete instance of another worker with no
distributed topology. -/
theorem c8_witness :
    handle_model_instance_event 1 envNo initialState
      { type := EventType.updated, data := miForeign } = (initialState, []) :=
  c8_foreign_instance_ignored 1 envNo initialState
    { type := EventType.updated, data := miForeign } (by decide) (Or.inl rfl)

/-- Witness for C4: worker 3 holds position 1 of the subordinate list and
position 0 is still STARTING. -/
theorem c4_witness :
    handle_model_instance_event 3 envNo initialState
      { type := EventType.updated, data := miStrictOrder } = (initialState, []) :=
  c4_strict_subordinate_order 3 envNo initialState
    { type := EventType.updated, data := miStrictOrder }
    { mode := CoordinateMode.runFirst
      subordinate_workers := [swStarting2, swScheduled3] }
    1 0 swScheduled3 swStarting2
    (by decide) rfl
    (fun i swi hi hg => by
      have h0 : i = 0 := Nat.lt_one_iff.mp hi
      subst h0
      have h1 : swi = swStarting2 := by simpa using hg.symm
      subst h1
      decide)
    rfl rfl (by decide) rfl (by decide) (by decide)

/-! ### The claims about the Restart Policy (C5, C6, C10) -/

/-- C5: the backoff delay of the restart sweep equals
`min(10 * 2 ** (restart_count - 1), 300)` seconds (stated over the
rationals against the microsecond embedding), takes the values
10, 20, 40, 80 seconds for restart counts 1..4, never exceeds the 300
second cap, and is non-decreasing in the restart count; and a sweep over
an ERROR instance with restart count 2 whose last restart was 5 seconds
ago computes a 20 second delay and takes no action. -/
theorem c5_restart_delay_backoff (rc rc2 : Nat) (mi : ModelInstance)
    (s : LocalState) (now : ℤ)
    (h1 : 1 ≤ rc) (hmono : rc ≤ rc2)
    (hnotserv : alLookup mi.id s.serving = none)
    (hrc : mi.restart_count = some 2)
    (hlrt : mi.last_restart_time = some (now - 5000000)) :
    ((restartDelayUs rc : ℚ) = min (10 * (2 : ℚ) ^ ((rc : ℤ) - 1)) 300 * 1000000)
    ∧ restartDelayUs 1 = 10000000
    ∧ restartDelayUs 2 = 20000000
    ∧ restartDelayUs 3 = 40000000
    ∧ restartDelayUs 4 = 80000000
    ∧ restartDelayUs rc ≤ 300000000
    ∧ restartDelayUs rc ≤ restartDelayUs rc2
    ∧ restart_error_instance mi s now = (s, []) := by
  refine ⟨?_, by decide, by decide, by decide, by decide, min_le_right _ _, ?_, ?_⟩
  · rw [restartDelayUs]
    push_cast [Nat.cast_min]
    rw [zpow_sub_one₀ (by norm_num : (2 : ℚ) ≠ 0), zpow_natCast]
    rw [min_mul_of_nonneg _ _ (by norm_num : (0 : ℚ) ≤ 1000000)]
    ring_nf
  · apply min_le_min _ le_rfl
    have h2 : (2 : ℕ) ^ rc ≤ 2 ^ rc2 := Nat.pow_le_pow_right (by norm_num) hmono
    nlinarith
  · unfold restart_error_instance
    rw [if_neg (by simp [hnotserv])]
    simp only [hrc, hlrt, Option.getD_some, Option.some_orElse]
    have helapsed : now - (now - 5000000) = 5000000 := by ring
    rw [helapsed]
    norm_num [restartDelayUs]

/-- Witness for C5 at restart counts 1 and 3 and a concrete remembered
instance five seconds past its second restart. -/
theorem c5_witness :
    restartDelayUs 1 = 10000000
    ∧ restart_error_instance miBackoff sErr 0 = (sErr, []) := by
  have h := c5_restart_delay_backoff 1 3 miBackoff sErr 0
    (by decide) (by decide) (by decide) rfl (by decide)
  exact ⟨h.2.1, h.2.2.2.2.2.2.2⟩

/-- C6: the restart sweep leaves a remembered ERROR instance alone while it
is still tracked as serving, or while the elapsed microseconds since its
last restart time (falling back to its last-updated time) are below the
backoff delay; once the elapsed time reaches the delay it emits exactly one
patch raising the restart count by one, stamping the current time, setting
state SCHEDULED with a cleared message, and drops the id from the
remembered-ERROR map. -/
theorem c6_restart_sweep_behavior (mi : ModelInstance) (s : LocalState)
    (now : ℤ) :
    ((alLookup mi.id s.serving).isSome →
      restart_error_instance mi s now = (s, []))
    ∧ (alLookup mi.id s.serving = none →
        ∀ t, (mi.last_restart_time <|> mi.updated_at) = some t →
          (now - t < (restartDelayUs (mi.restart_count.getD 0) : ℤ) →
            restart_error_instance mi s now = (s, []))
          ∧ ((restartDelayUs (mi.restart_count.getD 0) : ℤ) ≤ now - t →
            restart_error_instance mi s now =
              ({ s with errorInstances := alErase mi.id s.errorInstances },
               [Effect.patch mi.id (PatchDict.restart
                  (mi.restart_count.getD 0 + 1) now
                  ModelInstanceStateEnum.scheduled "")]))) := by
  constructor
  · intro h
    unfold restart_error_instance
    rw [if_pos h]
  · intro hn t ht
    constructor
    · intro hlt
      unfold restart_error_instance
      rw [if_neg (by simp [hn])]
      simp only [ht]
      rw [if_pos (by simpa using hlt)]
    · intro hge
      unfold restart_error_instance
      rw [if_neg (by simp [hn])]
      simp only [ht]
      rw [if_neg (by simpa using not_lt.mpr hge)]

/-- Witness for C6: instance 6, restarted once at time 0, is restarted by a
sweep at time 20000000 (20 seconds, past the 10 second delay). -/
theorem c6_witness :
    restart_error_instance miOnceRestarted sErr 20000000 =
      ({ sErr with errorInstances := [] },
       [Effect.patch 6 (PatchDict.restart 2 20000000
          ModelInstanceStateEnum.scheduled "")]) := by
  have h := ((c6_restart_sweep_behavior miOnceRestarted sErr 20000000).2
    (by decide) 0 rfl).2 (by decide)
  simpa using h

/-- C10: with the restart count unset or zero the backoff delay is exactly
five seconds (5000000 microseconds) — not sub-second — so the restart sweep
takes no action before five seconds have elapsed since the last restart
time (or, when that is unset, since the last-updated time). -/
theorem c10_first_restart_delay (mi : ModelInstance) (s : LocalState)
    (now t : ℤ)
    (hrc : mi.restart_count = none ∨ mi.restart_count = some 0)
    (ht : (mi.last_restart_time <|> mi.updated_at) = some t)
    (hnotserv : alLookup mi.id s.serving = none)
    (helapsed : now - t < 5000000) :
    restartDelayUs 0 = 5000000
    ∧ ((restartDelayUs 0 : ℚ) = 5 * 1000000)
    ∧ restart_error_instance mi s now = (s, []) := by
  have hrc0 : mi.restart_count.getD 0 = 0 := by
    rcases hrc with h | h <;> simp [h]
  refine ⟨by decide, by norm_num [restartDelayUs], ?_⟩
  unfold restart_error_instance
  rw [if_neg (by simp [hnotserv])]
  simp only [ht, hrc0]
  rw [if_pos (by simpa [restartDelayUs] using helapsed)]

/-- Witness for C10: a never-restarted instance updated at time 0 is left
alone by a sweep at time 3000000 (3 seconds). -/
theorem c10_witness :
    restart_error_instance miNeverRestarted sErr 3000000 = (sErr, []) := by
  have h := c10_first_restart_delay miNeverRestarted sErr 3000000 0
    (Or.inl rfl) rfl (by decide) (by decide)
  exact h.2.2

/-! ### The claim about start failures (C7) -/

theorem start_try_fail (env : Env) (mi : ModelInstance) (s : LocalState)
    (pos? : Option Nat)
    (hcache : alLookup mi.id s.modelCache = none)
    (hfail : env.model mi.id = none
      ∨ (mi.port.getD 0 = 0 ∧ ∀ u, env.get_free_port u = none)
      ∨ env.spawn = none) :
    ((start_try env mi s pos?).1.serving = s.serving
      ∧ (start_try env mi s pos?).1.ports = s.ports
      ∧ (start_try env mi s pos?).1.starting = s.starting)
    ∧ (pos? = none → ∃ msg, (start_try env mi s pos?).2 =
        [Effect.patch mi.id (PatchDict.stateMsg ModelInstanceStateEnum.error msg)])
    ∧ (∀ pos, pos? = some pos → ∃ sw, (start_try env mi s pos?).2 =
        [Effect.patch mi.id (PatchDict.subSlot pos sw)]
        ∧ sw.state = ModelInstanceStateEnum.error) := by
  unfold start_try
  simp only [get_model_with_cache, hcache]
  cases hm : env.model mi.id with
  | none =>
      cases pos? <;> simp
  | some m =>
      rcases hfail with h | ⟨hport, hfp⟩ | hspawn
      · exact absurd hm (by simp [h])
      · cases pos? <;> simp [hport, hfp]
      · by_cases hport : mi.port.getD 0 = 0
        · cases hfp : env.get_free_port (ports_union s.ports) with
          | none => cases pos? <;> simp [hport, hfp]
          | some p =>
              by_cases hds : mi.distributed_servers.isSome ∧ subsOf mi ≠ []
              · by_cases hb : m.backend = BackendEnum.ascendMindie
                · cases hfp2 : env.get_free_port (p :: ports_union s.ports) with
                  | none => cases pos? <;> simp [hport, hfp, hds, hb, hfp2]
                  | some p2 => cases pos? <;> simp [hport, hfp, hds, hb, hfp2, hspawn]
                · cases pos? <;> simp [hport, hfp, hds, hb, hspawn]
              · cases pos? <;> simp [hport, hfp, hds, hspawn]
        · cases pos? <;> simp [hport, hspawn]

/-- C7: when any of the modelled start failures occurs (model or backend
lookup failure, port-range exhaustion, spawn failure), the start path for
an untracked instance emits exactly one control-plane patch setting state
ERROR with a failure message (for the main worker the whole-instance
state, for a subordinate only that slot), spawns nothing, and creates no
bookkeeping: the id stays absent from the serving, serving-ports and
starting maps. -/
theorem c7_start_failure_no_bookkeeping (selfId : Nat) (env : Env)
    (mi : ModelInstance) (s : LocalState)
    (hcache : alLookup mi.id s.modelCache = none)
    (hserv : alLookup mi.id s.serving = none)
    (hports : alLookup mi.id s.ports = none)
    (hstart : alLookup mi.id s.starting = none)
    (hrole : mi.worker_id = some selfId
      ∨ (find_slot_idx selfId (subsOf mi)).isSome)
    (hfail : env.model mi.id = none
      ∨ (mi.port.getD 0 = 0 ∧ ∀ u, env.get_free_port u = none)
      ∨ env.spawn = none) :
    alLookup mi.id (start_serve_process selfId env mi s).1.serving = none
    ∧ alLookup mi.id (start_serve_process selfId env mi s).1.ports = none
    ∧ alLookup mi.id (start_serve_process selfId env mi s).1.starting = none
    ∧ (∀ i pid, Effect.spawn i pid ∉ (start_serve_process selfId env mi s).2)
    ∧ (mi.worker_id = some selfId →
        ∃ msg, (start_serve_process selfId env mi s).2 =
          [Effect.patch mi.id (PatchDict.stateMsg ModelInstanceStateEnum.error msg)])
    ∧ (mi.worker_id ≠ some selfId →
        ∃ pos sw, (start_serve_process selfId env mi s).2 =
          [Effect.patch mi.id (PatchDict.subSlot pos sw)]
          ∧ sw.state = ModelInstanceStateEnum.error) := by
  unfold start_serve_process
  by_cases hw : mi.worker_id = some selfId
  · rw [if_pos hw]
    have h := start_try_fail env mi
      { s with mapping := alUpdate mi.id (mi.model_name ++ "/" ++ mi.name) s.mapping }
      none hcache hfail
    obtain ⟨⟨h1, h2, h3⟩, h4, _⟩ := h
    obtain ⟨msg, hmsg⟩ := h4 rfl
    refine ⟨by rw [h1]; exact hserv, by rw [h2]; exact hports,
      by rw [h3]; exact hstart, ?_, fun _ => ⟨msg, hmsg⟩, fun hn => absurd hw hn⟩
    intro i pid
    rw [hmsg]
    simp
  · rw [if_neg hw]
    rcases hrole with h | h
    · exact absurd h hw
    · cases hidx : find_slot_idx selfId (subsOf mi) with
      | none => rw [hidx] at h; simp at h
      | some pos =>
          have hq := start_try_fail env mi
            { s with mapping := alUpdate mi.id (mi.model_name ++ "/" ++ mi.name) s.mapping }
            (some pos) hcache hfail
          obtain ⟨⟨h1, h2, h3⟩, _, h5⟩ := hq
          obtain ⟨sw, hsw, hswe⟩ := h5 pos rfl
          refine ⟨by rw [h1]; exact hserv, by rw [h2]; exact hports,
            by rw [h3]; exact hstart, ?_, fun hm => absurd hm hw,
            fun _ => ⟨pos, sw, hsw, hswe⟩⟩
          intro i pid
          rw [hsw]
          simp

/-- Witness for C7: with every external call failing, starting an untracked
instance patches ERROR and creates no bookkeeping. -/
theorem c7_witness :
    alLookup 5 (start_serve_process 1 envNo miRunSnapshot initialState).1.serving = none
    ∧ ∃ msg, (start_serve_process 1 envNo miRunSnapshot initialState).2 =
        [Effect.patch 5 (PatchDict.stateMsg ModelInstanceStateEnum.error msg)] := by
  have h := c7_start_failure_no_bookkeeping 1 envNo miRunSnapshot initialState
    rfl rfl rfl rfl (Or.inl rfl) (Or.inl rfl)
  exact ⟨h.1, h.2.2.2.2.1 rfl⟩

/-! ### The claim about the health sweep (C1) -/

/-- C1 counterexample: both tracked processes of `sTwoDead` have exited,
yet one sweep patches and cleans up only instance 1 and then returns:
instance 2 stays in the serving map and receives no patch, refuting the
claim that the sweep continues over the remaining serving instances. -/
theorem c1_counterexample :
    (health_check_serving_instances henvTwo 1 sTwoDead).2 =
      [Effect.patch 1 (PatchDict.stateMsg ModelInstanceStateEnum.error
        "Inference server exited with code 137.")]
    ∧ alLookup 2 (health_check_serving_instances henvTwo 1 sTwoDead).1.serving
        = some prDeadOne := by
  decide

/-- The health sweep passes over a prefix of serving entries whose
processes are alive and not in the starting map without touching the state
or emitting effects. -/
theorem health_check_go_skip (env : HealthEnv) (selfId : Nat) (s : LocalState)
    (effs : List Effect) :
    ∀ (pre rest : List (Nat × Proc)),
      (∀ p ∈ pre, p.2.alive = true ∧ alLookup p.1 s.starting = none) →
      health_check_go env selfId (pre ++ rest) s effs =
        health_check_go env selfId rest s effs := by
  intro pre
  induction pre with
  | nil => intro rest _; rfl
  | cons p t ih =>
      intro rest hpre
      obtain ⟨pid, proc⟩ := p
      have h1 := hpre (pid, proc) (List.mem_cons_self _ _)
      simp only [List.cons_append, health_check_go]
      rw [if_pos ⟨h1.1, by simp [h1.2]⟩]
      exact ih rest (fun q hq => hpre q (List.mem_cons_of_mem _ hq))

/-- C1 (amended): when the health sweep reaches a tracked instance whose OS
process has exited (after skipping any earlier alive, non-starting
entries), it patches the instance to ERROR with a message naming the exit
code — the whole-instance state for the main worker, only this node's slot
for a subordinate, and no patch at all when the fetched state is already
ERROR — runs the post-stop cleanup that removes the id from all local
bookkeeping, and then ends the whole sweep for this round, leaving every
remaining serving instance untouched until the next invocation; a
not-found error while fetching an instance, by contrast, stops that
instance and the sweep continues over the rest. -/
theorem c1_dead_process_ends_sweep (env : HealthEnv) (selfId id : Nat)
    (process : Proc) (pre rest : List (Nat × Proc)) (s : LocalState)
    (mi : ModelInstance) (pos : Nat)
    (hserv : s.serving = pre ++ (id, process) :: rest)
    (hpre : ∀ p ∈ pre, p.2.alive = true ∧ alLookup p.1 s.starting = none)
    (hdead : process.alive = false)
    (hlook : alLookup id s.serving = some process) :
    (env.fetch id = some mi → mi.state = ModelInstanceStateEnum.error →
      health_check_serving_instances env selfId s =
        (post_stop_model_instance mi.id s, []))
    ∧ (env.fetch id = some mi → mi.state ≠ ModelInstanceStateEnum.error →
        mi.worker_id = some selfId →
        health_check_serving_instances env selfId s =
          (post_stop_model_instance mi.id s,
           [Effect.patch mi.id (PatchDict.stateMsg ModelInstanceStateEnum.error
              ("Inference server exited with code "
                ++ toString process.exitcode ++ "."))]))
    ∧ (env.fetch id = some mi → mi.state ≠ ModelInstanceStateEnum.error →
        mi.worker_id ≠ some selfId →
        find_slot_idx selfId (subsOf mi) = some pos →
        health_check_serving_instances env selfId s =
          (post_stop_model_instance mi.id s,
           [Effect.patch mi.id (PatchDict.subSlot pos
              { (subsOf mi).getD pos swDefault with
                state := ModelInstanceStateEnum.error
                state_message := "Inference server exited with code "
                  ++ toString process.exitcode ++ "." })]))
    ∧ (env.fetch id = none →
        health_check_serving_instances env selfId s =
          health_check_go env selfId rest (post_stop_model_instance id s)
            [Effect.terminate process.pid]) := by
  have hrw : health_check_serving_instances env selfId s =
      health_check_go env selfId ((id, process) :: rest) s [] := by
    unfold health_check_serving_instances
    rw [hserv, health_check_go_skip env selfId s [] pre _ hpre]
  refine ⟨?_, ?_, ?_, ?_⟩
  · intro hfetch hstate
    rw [hrw]
    simp [health_check_go, hdead, hfetch, hstate]
  · intro hfetch hstate hmain
    rw [hrw]
    simp [health_check_go, hdead, hfetch, hstate, hmain]
  · intro hfetch hstate hother hslot
    rw [hrw]
    simp [health_check_go, hdead, hfetch, hstate, hother, hslot]
  · intro hfetch
    rw [hrw]
    simp [health_check_go, hdead, hfetch, stop_model_instance, hlook]

/-- Witness for the amended C1, exercising all four branches: the
main-worker ERROR patch after a skipped alive entry, the subordinate-slot
patch, the no-patch path for an already-ERROR instance, and the not-found
continuation. -/
theorem c1_witness :
    (health_check_serving_instances henvMulti 1 sSkipDead =
      (post_stop_model_instance 1 sSkipDead,
       [Effect.patch 1 (PatchDict.stateMsg ModelInstanceStateEnum.error
          "Inference server exited with code 137.")]))
    ∧ (health_check_serving_instances henvMulti 1 sDeadSub =
      (post_stop_model_instance 3 sDeadSub,
       [Effect.patch 3 (PatchDict.subSlot 0
          { swSlotSelf1 with
            state := ModelInstanceStateEnum.error
            state_message := "Inference server exited with code 137." })]))
    ∧ (health_check_serving_instances henvMulti 1 sDeadErr =
      (post_stop_model_instance 4 sDeadErr, []))
    ∧ (health_check_serving_instances henvMulti 1 sDeadGone =
      health_check_go henvMulti 1 [(9, prAliveIdle)]
        (post_stop_model_instance 7 sDeadGone) [Effect.terminate 12]) := by
  refine ⟨?_, ?_, ?_, ?_⟩
  · exact (c1_dead_process_ends_sweep henvMulti 1 1 prDead137
      [(8, prAliveIdle)] [(2, prDeadOne)] sSkipDead miHealth1 0
      rfl (by decide) rfl (by decide)).2.1 rfl (by decide) rfl
  · exact (c1_dead_process_ends_sweep henvMulti 1 3 prDead137
      [] [] sDeadSub miSubDead 0
      rfl (by decide) rfl (by decide)).2.2.1 rfl (by decide) (by decide) (by decide)
  · exact (c1_dead_process_ends_sweep henvMulti 1 4 prDeadOne
      [] [] sDeadErr miErrFetched 0
      rfl (by decide) rfl (by decide)).1 rfl rfl
  · exact (c1_dead_process_ends_sweep henvMulti 1 7 prDeadOne
      [] [(9, prAliveIdle)] sDeadGone miBase 0
      rfl (by decide) rfl (by decide)).2.2.2 (by decide)

/-! ### The serving/ports alignment invariant (C9) -/

theorem sameKeys_trans_fields {s t : LocalState} (hs : t.serving = s.serving)
    (hp : t.ports = s.ports) (h : sameKeys s) : sameKeys t := by
  intro k
  rw [sameKeys] at h
  rw [hs, hp]
  exact h k

theorem sameKeys_post_stop (id : Nat) {s : LocalState} (h : sameKeys s) :
    sameKeys (post_stop_model_instance id s) := by
  intro k
  simp only [post_stop_model_instance, alLookup_alErase]
  by_cases hk : k = id <;> simp [hk, h k]

theorem sameKeys_stop (id : Nat) {s : LocalState} (h : sameKeys s) :
    sameKeys (stop_model_instance id s).1 := by
  unfold stop_model_instance
  cases hl : alLookup id s.serving with
  | none => exact h
  | some pr => exact sameKeys_post_stop id h

theorem get_model_with_cache_fields (fetch : Nat → Option Model)
    (mi : ModelInstance) (s : LocalState) (m : Model) (t : LocalState)
    (h : get_model_with_cache fetch mi s = some (m, t)) :
    t.serving = s.serving ∧ t.ports = s.ports ∧ t.starting = s.starting := by
  unfold get_model_with_cache at h
  cases hc : alLookup mi.id s.modelCache with
  | some m0 =>
      rw [hc] at h
      have ht : s = t := congrArg Prod.snd (Option.some.inj h)
      rw [← ht]
      exact ⟨rfl, rfl, rfl⟩
  | none =>
      rw [hc] at h
      cases hf : fetch mi.id with
      | none => rw [hf] at h; exact absurd h (by simp)
      | some m1 =>
          rw [hf] at h
          have ht : ({ s with modelCache := alUpdate mi.id m1 s.modelCache }
              : LocalState) = t := congrArg Prod.snd (Option.some.inj h)
          rw [← ht]
          exact ⟨rfl, rfl, rfl⟩

theorem start_try_state_shape (env : Env) (mi : ModelInstance) (s : LocalState)
    (pos? : Option Nat) :
    ((start_try env mi s pos?).1.serving = s.serving
      ∧ (start_try env mi s pos?).1.ports = s.ports)
    ∨ (∃ pr pl, (start_try env mi s pos?).1.serving = alUpdate mi.id pr s.serving
        ∧ (start_try env mi s pos?).1.ports = alUpdate mi.id pl s.ports) := by
  unfold start_try
  cases hm : get_model_with_cache env.model mi s with
  | none =>
      cases pos? <;> exact Or.inl ⟨rfl, rfl⟩
  | some p =>
      obtain ⟨m, s1⟩ := p
      obtain ⟨h1, h2, h3⟩ := get_model_with_cache_fields env.model mi s m s1 hm
      dsimp only
      rw [← h1, ← h2]
      repeat' split
      all_goals
        first
          | exact Or.inl ⟨rfl, rfl⟩
          | exact Or.inr ⟨_, _, rfl, rfl⟩

theorem sameKeys_start_try (env : Env) (mi : ModelInstance) (s : LocalState)
    (pos? : Option Nat) (h : sameKeys s) : sameKeys (start_try env mi s pos?).1 := by
  rcases start_try_state_shape env mi s pos? with ⟨h1, h2⟩ | ⟨pr, pl, h1, h2⟩
  · exact sameKeys_trans_fields h1 h2 h
  · intro k
    rw [h1, h2]
    simp only [alLookup_alUpdate]
    by_cases hk : k = mi.id <;> simp [hk, h k]

theorem sameKeys_start (selfId : Nat) (env : Env) (mi : ModelInstance)
    (s : LocalState) (h : sameKeys s) :
    sameKeys (start_serve_process selfId env mi s).1 := by
  simp only [start_serve_process]
  split
  · exact sameKeys_start_try _ _ _ _ h
  · split
    · exact h
    · exact sameKeys_start_try _ _ _ _ h

theorem sameKeys_restart_serve (selfId : Nat) (env : Env) (mi : ModelInstance)
    (s : LocalState) (h : sameKeys s) :
    sameKeys (restart_serve_process selfId env mi s).1 := by
  unfold restart_serve_process
  exact sameKeys_start _ _ _ _ (sameKeys_stop _ h)

theorem sameKeys_restart_error (mi : ModelInstance) (s : LocalState) (now : ℤ)
    (h : sameKeys s) : sameKeys (restart_error_instance mi s now).1 := by
  simp only [restart_error_instance]
  split
  · exact h
  · split
    · exact h
    · exact h

theorem sameKeys_monitor_once (s : LocalState) (now : ℤ) (h : sameKeys s) :
    sameKeys (monitor_error_instances_once s now).1 := by
  unfold monitor_error_instances_once
  have H : ∀ (l : List (Nat × ModelInstance)) (acc : LocalState × List Effect),
      sameKeys acc.1 →
      sameKeys (l.foldl (fun acc p =>
        let r := restart_error_instance p.2 acc.1 now
        (r.1, acc.2 ++ r.2)) acc).1 := by
    intro l
    induction l with
    | nil => intro acc hacc; exact hacc
    | cons p t ih =>
        intro acc hacc
        exact ih _ (sameKeys_restart_error _ _ _ hacc)
  exact H _ _ h

theorem sameKeys_handle (selfId : Nat) (env : Env) (s : LocalState) (ev : Event)
    (h : sameKeys s) :
    sameKeys (handle_model_instance_event selfId env s ev).1 := by
  simp only [handle_model_instance_event, dispatch_event]
  split
  · exact h
  · split
    · exact h
    · split
      · cases hm : get_model_with_cache env.model ev.data s with
        | none => exact h
        | some p =>
            obtain ⟨m, s1⟩ := p
            obtain ⟨h1, h2, h3⟩ :=
              get_model_with_cache_fields env.model ev.data s m s1 hm
            dsimp only
            split
            · exact sameKeys_trans_fields h1 h2 h
            · exact sameKeys_trans_fields h1 h2 h
      · split
        · exact sameKeys_stop _ h
        · split
          · exact sameKeys_restart_serve _ _ _ _ h
          · split
            · exact sameKeys_start _ _ _ _ h
            · exact h

theorem sameKeys_health_go (env : HealthEnv) (selfId : Nat) :
    ∀ (l : List (Nat × Proc)) (s : LocalState) (effs : List Effect),
      sameKeys s → sameKeys (health_check_go env selfId l s effs).1 := by
  intro l
  induction l with
  | nil => intro s effs h; exact h
  | cons p rest ih =>
      intro s effs h
      obtain ⟨id, process⟩ := p
      simp only [health_check_go]
      split
      · exact ih _ _ h
      · cases hf : env.fetch id with
        | none => exact ih _ _ (sameKeys_stop _ h)
        | some mi =>
            dsimp only
            split
            · split
              · exact sameKeys_post_stop _ h
              · split
                · exact sameKeys_post_stop _ h
                · cases find_slot_idx selfId (subsOf mi) with
                  | none => exact h
                  | some pos => exact sameKeys_post_stop _ h
            · cases hm : get_model_with_cache env.model mi s with
              | none => exact h
              | some q =>
                  obtain ⟨m, s1⟩ := q
                  obtain ⟨h1, h2, h3⟩ :=
                    get_model_with_cache_fields env.model mi s m s1 hm
                  have hs1 : sameKeys s1 := sameKeys_trans_fields h1 h2 h
                  have hs1e : ∀ x, sameKeys { s1 with starting := x } :=
                    fun x => sameKeys_trans_fields rfl rfl hs1
                  dsimp only
                  split
                  · cases first_subordinate_error (subsOf mi) with
                    | none =>
                        dsimp only
                        split
                        · exact ih _ _ hs1
                        · split
                          · exact ih _ _ hs1
                          · exact ih _ _ (hs1e _)
                    | some msg => exact ih _ _ (hs1e _)
                  · split
                    · exact ih _ _ (hs1e _)
                    · cases find_slot_idx selfId (subsOf mi) with
                      | none => exact hs1
                      | some pos =>
                          dsimp only
                          split
                          · exact ih _ _ hs1
                          · exact ih _ _ (hs1e _)

/-- C9: the key set of the serving-ports map tracks the key set of the
serving map through every operation of the coordinator: it holds of the
freshly constructed state, and each operation — the start path, the
post-stop cleanup, the stop path, the restart of a stale process, the event
handler, the restart sweep (one instance and a whole pass) and the health
sweep — preserves it, inserting an id into both maps together or removing
it from both together. -/
theorem c9_serving_ports_alignment (selfId : Nat) (env : Env)
    (henv : HealthEnv) (mi : ModelInstance) (id : Nat) (s : LocalState)
    (ev : Event) (now : ℤ) (h : sameKeys s) :
    sameKeys initialState
    ∧ sameKeys (start_serve_process selfId env mi s).1
    ∧ sameKeys (post_stop_model_instance id s)
    ∧ sameKeys (stop_model_instance id s).1
    ∧ sameKeys (restart_serve_process selfId env mi s).1
    ∧ sameKeys (handle_model_instance_event selfId env s ev).1
    ∧ sameKeys (restart_error_instance mi s now).1
    ∧ sameKeys (monitor_error_instances_once s now).1
    ∧ sameKeys (health_check_serving_instances henv selfId s).1 :=
  ⟨fun _ => Iff.rfl,
   sameKeys_start selfId env mi s h,
   sameKeys_post_stop id h,
   sameKeys_stop id h,
   sameKeys_restart_serve selfId env mi s h,
   sameKeys_handle selfId env s ev h,
   sameKeys_restart_error mi s now h,
   sameKeys_monitor_once s now h,
   sameKeys_health_go henv selfId s.serving s [] h⟩

/-- Witness for C9 on the concrete tracked state `sTracked`. -/
theorem c9_witness :
    sameKeys (handle_model_instance_event 1 envNo sTracked
      { type := EventType.deleted, data := miRunSnapshot }).1
    ∧ sameKeys (health_check_serving_instances henvTwo 1 sTracked).1 := by
  have hst : sameKeys sTracked := by
    intro k
    by_cases hk : k = 5 <;> simp [sTracked, alLookup, hk]
  have h := c9_serving_ports_alignment 1 envNo henvTwo miRunSnapshot 5 sTracked
    { type := EventType.deleted, data := miRunSnapshot } 0 hst
  exact ⟨h.2.2.2.2.2.1, h.2.2.2.2.2.2.2.2⟩

end ServeManager
